import Mathlib

/-!
Shallow embedding of the OTP generator component
(`src/components/OtpGenerator.tsx` of Dhruvpatel220204/otp-generator)
and proofs about its generation, expiry, history and persistence logic.

Modelling conventions:
* JS strings holding codes are `List Char`.
* `Date` values and `Date.now()` timestamps are epoch milliseconds as `Int`
  (JS subtraction of `getTime()` values can go negative, so `Int`, not `Nat`).
* `Math.floor(Math.random() * chars.length)` at the i-th loop iteration is
  modelled by an oracle `rand : Nat → Nat` giving the already-floored index;
  the JS expression always yields a value `< chars.length`, which theorems
  take as a hypothesis on the oracle.
* React `useState` fields of the component form one record `ManagerState`;
  each handler becomes a function `ManagerState → ... → ManagerState`.
-/

namespace Otp

/-- TS `type CodeType = 'numeric' | 'alphanumeric'` -/
inductive CodeType where
  | numeric
  | alphanumeric
deriving DecidableEq, Repr

/-- TS `type CodeLength = 4 | 6 | 8` -/
inductive CodeLength where
  | four
  | six
  | eight
deriving DecidableEq, Repr

/-- The numeric value of a `CodeLength`. -/
def CodeLength.toNat : CodeLength → Nat
  | .four => 4
  | .six => 6
  | .eight => 8

/-- TS `interface Settings` (lines 27–32). -/
structure Settings where
  expiryMinutes : Nat
  autoRefresh : Bool
  soundEnabled : Bool
  batchCount : Nat
deriving DecidableEq, Repr

/-- TS `interface HistoryItem` (lines 18–25); `generatedAt`/`expiresAt` are epoch ms. -/
structure HistoryItem where
  id : String
  code : List Char
  generatedAt : Int
  expiresAt : Int
  length : CodeLength
  type : CodeType
deriving DecidableEq, Repr

/-- The `useState` fields of the component (lines 35–48). -/
structure ManagerState where
  otp : List Char
  codeLength : CodeLength
  codeType : CodeType
  generatedAt : Option Int
  history : List HistoryItem
  settings : Settings
  timeLeft : Int
  isAutoRunning : Bool
  batchCodes : List (List Char)
deriving DecidableEq, Repr

/-- Source `const numericChars = '0123456789'` (line 118). -/
def numericChars : List Char := "0123456789".toList

/-- Source `const alphanumericChars = '0123456789ABCDEFGHIJKLMNOPQRSTUVWXYZ'` (line 119). -/
def alphanumericChars : List Char := "0123456789ABCDEFGHIJKLMNOPQRSTUVWXYZ".toList

/-- Selection `codeType === 'numeric' ? numericChars : alphanumericChars` (line 120). -/
def charsOf : CodeType → List Char
  | .numeric => numericChars
  | .alphanumeric => alphanumericChars

/-- JS `s.charAt(i)`: the one-character string at index `i`, or the empty
string when `i` is out of range. -/
def charAt (s : List Char) (i : Nat) : List Char :=
  match s.get? i with
  | some c => [c]
  | none => []

/-- The initial `useState` values (lines 35–48): empty code, length 6, numeric,
no generation yet, empty history, default settings, `timeLeft = 0`, auto off,
no batch. -/
def initialState : ManagerState where
  otp := []
  codeLength := .six
  codeType := .numeric
  generatedAt := none
  history := []
  settings := { expiryMinutes := 5, autoRefresh := false, soundEnabled := true, batchCount := 1 }
  timeLeft := 0
  isAutoRunning := false
  batchCodes := []

/-- Function `generateSingleOtp` (lines 117–128): starting from `result = ''`, append
`chars.charAt(Math.floor(Math.random() * chars.length))` for `i` from `0` to
`codeLength - 1`.  `rand i` is the oracle for the i-th floored random draw. -/
def generateSingleOtp (codeType : CodeType) (codeLength : CodeLength)
    (rand : Nat → Nat) : List Char :=
  let chars := charsOf codeType
  (List.range codeLength.toNat).foldl (fun result i => result ++ charAt chars (rand i)) []

theorem charAt_length_of_lt {s : List Char} {i : Nat} (h : i < s.length) :
    (charAt s i).length = 1 := by
  unfold charAt
  rw [List.get?_eq_get h]
  rfl

theorem mem_of_mem_charAt {s : List Char} {i : Nat} {c : Char}
    (h : c ∈ charAt s i) : c ∈ s := by
  unfold charAt at h
  cases hg : s.get? i with
  | none => rw [hg] at h; simp at h
  | some d =>
    rw [hg] at h
    simp at h
    subst h
    exact List.get?_mem hg

theorem foldl_append_eq_join (f : Nat → List Char) (l : List Nat) (init : List Char) :
    l.foldl (fun result i => result ++ f i) init = init ++ (l.map f).flatten := by
  induction l generalizing init with
  | nil => simp
  | cons x xs ih => simp [List.foldl_cons, ih]

theorem generateSingleOtp_eq_join (t : CodeType) (l : CodeLength) (rand : Nat → Nat) :
    generateSingleOtp t l rand
      = ((List.range l.toNat).map (fun i => charAt (charsOf t) (rand i))).flatten := by
  unfold generateSingleOtp
  rw [foldl_append_eq_join]
  simp

/-- Function `generateOtp` (lines 130–179).  `now` models `new Date()` / `Date.now()`
(one clock reading, in ms); `rands j` is the random oracle consumed by the
j-th `generateSingleOtp` call of this invocation (the single-code branch uses
`rands 0`).  Sound and toast are presentational and carry no state. -/
def generateOtp (s : ManagerState) (now : Int) (rands : Nat → Nat → Nat) : ManagerState :=
  let expiresAt : Int := now + (s.settings.expiryMinutes : Int) * 60 * 1000
  if s.settings.batchCount = 1 then
    let newOtp := generateSingleOtp s.codeType s.codeLength (rands 0)
    let historyItem : HistoryItem :=
      { id := toString now, code := newOtp, generatedAt := now, expiresAt := expiresAt,
        length := s.codeLength, type := s.codeType }
    let newHistory := (historyItem :: s.history).take 20
    { s with otp := newOtp, batchCodes := [],
             history := newHistory, generatedAt := some now }
  else
    let codes := (List.range s.settings.batchCount).map
      (fun j => generateSingleOtp s.codeType s.codeLength (rands j))
    let historyItems : List HistoryItem := codes.enum.map (fun p =>
      { id := toString now ++ "-" ++ toString p.1, code := p.2,
        generatedAt := now, expiresAt := expiresAt,
        length := s.codeLength, type := s.codeType })
    let newHistory := (historyItems ++ s.history).take 20
    { s with batchCodes := codes, otp := [],
             history := newHistory, generatedAt := some now }

/-- Expression `Math.max(0, expiryTime.getTime() - now.getTime())` (line 80). -/
def remainingMs (expiryTime now : Int) : Int := max 0 (expiryTime - now)

/-- Expression `new Date(generatedAt.getTime() + settings.expiryMinutes * 60 * 1000)`
(line 76), as epoch ms. -/
def expiryTimeOf (generatedAt : Int) (expiryMinutes : Nat) : Int :=
  generatedAt + (expiryMinutes : Int) * 60 * 1000

/-- One firing of the countdown interval (lines 74–93).  The effect only
installs a timer when a code was generated and `expiryMinutes > 0`; each firing
stores the remaining ms and, on reaching 0 with `autoRefresh` and
`isAutoRunning` both set, calls `generateOtp`. -/
def tick (s : ManagerState) (now : Int) (rands : Nat → Nat → Nat) : ManagerState :=
  match s.generatedAt with
  | none => s
  | some g =>
    if 0 < s.settings.expiryMinutes then
      let remaining := remainingMs (expiryTimeOf g s.settings.expiryMinutes) now
      let s1 := { s with timeLeft := remaining }
      if remaining = 0 then
        if s.settings.autoRefresh && s.isAutoRunning then generateOtp s1 now rands else s1
      else s1
    else s

/-- Function `clearHistory` (lines 226–233): empties the history (and removes its
persisted snapshot). -/
def clearHistory (s : ManagerState) : ManagerState :=
  { s with history := [] }

/-- Function `toggleAutoRefresh` (lines 235–238): negates `isAutoRunning` and negates
`settings.autoRefresh`, leaving every other field alone. -/
def toggleAutoRefresh (s : ManagerState) : ManagerState :=
  { s with isAutoRunning := !s.isAutoRunning,
           settings := { s.settings with autoRefresh := !s.settings.autoRefresh } }

/-- Source `const isExpired = timeLeft === 0 && generatedAt` (line 255): truthy iff
`timeLeft` is 0 and a code has been generated. -/
def isExpired (s : ManagerState) : Bool :=
  s.timeLeft == 0 && s.generatedAt.isSome

/-- Outcome of `copyToClipboard` (lines 181–198): early return when there is
no text, otherwise a successful write of the text or a platform denial. -/
inductive CopyResult where
  | noText
  | copied (text : List Char)
  | failed
deriving DecidableEq, Repr

/-- Expression `batchCodes.join('\n')` (line 182). -/
def joinNewline (codes : List (List Char)) : List Char :=
  (codes.intersperse [Char.ofNat 10]).flatten

/-- Expression `code || (batchCodes.length > 0 ? batchCodes.join('\n') : otp)` (line 182):
the text a `copyToClipboard` call selects.  The JS check is a falsy one, so an
explicitly given empty string falls back too. -/
def textToCopyOf (s : ManagerState) (code : Option (List Char)) : List Char :=
  let fallback := if 0 < s.batchCodes.length then joinNewline s.batchCodes else s.otp
  match code with
  | some c => if c = [] then fallback else c
  | none => fallback

/-- Function `copyToClipboard` (lines 181–198).  `code` is the optional argument;
`clipboardOk` models whether `navigator.clipboard.writeText` resolves; exactly
one write is attempted and a rejection is reported (destructive toast), never
retried. -/
def copyToClipboard (s : ManagerState) (code : Option (List Char))
    (clipboardOk : Bool) : CopyResult :=
  if textToCopyOf s code = [] then CopyResult.noText
  else if clipboardOk then CopyResult.copied (textToCopyOf s code)
  else CopyResult.failed

/-- The number of history entries a `generateOtp` call prepends: one in the
single branch, `batchCount` in the batch branch. -/
def numNew (s : ManagerState) : Nat :=
  if s.settings.batchCount = 1 then 1 else s.settings.batchCount

theorem generateSingleOtp_length (t : CodeType) (l : CodeLength)
    (rand : Nat → Nat) (hr : ∀ i, rand i < (charsOf t).length) :
    (generateSingleOtp t l rand).length = l.toNat := by
  rw [generateSingleOtp_eq_join, List.length_flatten]
  have hmap : ((List.range l.toNat).map
      (fun i => charAt (charsOf t) (rand i))).map List.length
      = (List.range l.toNat).map (fun _ => 1) := by
    rw [List.map_map]
    apply List.map_congr_left
    intro i _
    exact charAt_length_of_lt (hr i)
  rw [hmap]
  simp

theorem generateSingleOtp_mem (t : CodeType) (l : CodeLength) (rand : Nat → Nat) :
    ∀ c ∈ generateSingleOtp t l rand, c ∈ charsOf t := by
  rw [generateSingleOtp_eq_join]
  intro c hc
  rw [List.mem_flatten] at hc
  obtain ⟨piece, hpiece, hcpiece⟩ := hc
  rw [List.mem_map] at hpiece
  obtain ⟨i, _, rfl⟩ := hpiece
  exact mem_of_mem_charAt hcpiece

/-- Claim C1: For every length in `{4,6,8}` and every type, each code produced by
generation has exactly `length` characters, all drawn from the alphabet of the
type (`0123456789` for numeric, `0123456789ABCDEFGHIJKLMNOPQRSTUVWXYZ` for
alphanumeric).  The hypothesis on `rand` is the guarantee JS gives for
`Math.floor(Math.random() * chars.length)`. -/
theorem generateSingleOtp_length_and_alphabet (t : CodeType) (l : CodeLength)
    (rand : Nat → Nat) (hr : ∀ i, rand i < (charsOf t).length) :
    (generateSingleOtp t l rand).length = l.toNat ∧
      ∀ c ∈ generateSingleOtp t l rand, c ∈ charsOf t :=
  ⟨generateSingleOtp_length t l rand hr, generateSingleOtp_mem t l rand⟩

theorem generateSingleOtp_length_and_alphabet_witness :
    (∀ i, (fun j => j % 10) i < (charsOf CodeType.numeric).length) ∧
      (generateSingleOtp CodeType.numeric CodeLength.six (fun j => j % 10)).length
          = CodeLength.six.toNat ∧
        ∀ c ∈ generateSingleOtp CodeType.numeric CodeLength.six (fun j => j % 10),
          c ∈ charsOf CodeType.numeric := by
  have hr : ∀ i, (fun j => j % 10) i < (charsOf CodeType.numeric).length := by
    intro i
    have : i % 10 < 10 := Nat.mod_lt i (by decide)
    simpa [charsOf, numericChars] using this
  exact ⟨hr, generateSingleOtp_length_and_alphabet CodeType.numeric CodeLength.six _ hr⟩

theorem generateOtp_preserves (s : ManagerState) (now : Int) (rands : Nat → Nat → Nat) :
    (generateOtp s now rands).settings = s.settings ∧
    (generateOtp s now rands).timeLeft = s.timeLeft ∧
    (generateOtp s now rands).isAutoRunning = s.isAutoRunning ∧
    (generateOtp s now rands).codeLength = s.codeLength ∧
    (generateOtp s now rands).codeType = s.codeType ∧
    (generateOtp s now rands).generatedAt = some now := by
  unfold generateOtp
  split <;> simp

/-- Shape of the history after one `generateOtp` call: some list of fresh
entries, all stamped `now` with expiry `now + expiryMinutes·60000`, is
prepended to the old history and the result truncated to 20. -/
theorem generateOtp_history_shape (s : ManagerState) (now : Int) (rands : Nat → Nat → Nat) :
    ∃ items : List HistoryItem,
      (generateOtp s now rands).history = (items ++ s.history).take 20 ∧
      items.length = numNew s ∧
      ∀ e ∈ items, e.generatedAt = now ∧
        e.expiresAt = now + (s.settings.expiryMinutes : Int) * 60 * 1000 := by
  unfold generateOtp numNew
  by_cases hbc : s.settings.batchCount = 1
  · refine ⟨[{ id := toString now,
               code := generateSingleOtp s.codeType s.codeLength (rands 0),
               generatedAt := now,
               expiresAt := now + (s.settings.expiryMinutes : Int) * 60 * 1000,
               length := s.codeLength, type := s.codeType }], ?_, ?_, ?_⟩ <;>
      simp [hbc]
  · refine ⟨((List.range s.settings.batchCount).map
        (fun j => generateSingleOtp s.codeType s.codeLength (rands j))).enum.map
        (fun p => { id := toString now ++ "-" ++ toString p.1, code := p.2,
                    generatedAt := now,
                    expiresAt := now + (s.settings.expiryMinutes : Int) * 60 * 1000,
                    length := s.codeLength, type := s.codeType }), ?_, ?_, ?_⟩
    · simp [hbc]
    · simp [hbc]
    · intro e he
      rw [List.mem_map] at he
      obtain ⟨p, _, rfl⟩ := he
      exact ⟨rfl, rfl⟩

theorem tick_timeLeft (s : ManagerState) (now : Int) (rands : Nat → Nat → Nat)
    (g : Int) (hg : s.generatedAt = some g) (hm : 0 < s.settings.expiryMinutes) :
    (tick s now rands).timeLeft
      = remainingMs (expiryTimeOf g s.settings.expiryMinutes) now := by
  unfold tick
  rw [hg]
  simp only [hm, if_pos]
  by_cases h0 : remainingMs (expiryTimeOf g s.settings.expiryMinutes) now = 0
  · simp only [h0, if_pos]
    split
    · rw [(generateOtp_preserves _ _ _).2.1]
    · rfl
  · simp [h0]

/-- Claim C2: Every entry a `generateOtp` call adds carries
`expiresAt = generatedAt + expiryMinutes·60000`; while a code is active
(`expiryMinutes > 0`), each tick stores
`remainingMs = max 0 (generatedAt + expiryMinutes·60000 − now)`; in particular
the tick at exactly `generatedAt + expiryMinutes·60000` stores 0 and the tick
at `generatedAt` stores `expiryMinutes·60000`. -/
theorem expiry_and_tick_remaining (s : ManagerState) (now : Int)
    (rands : Nat → Nat → Nat) (g : Int)
    (hg : s.generatedAt = some g) (hm : 0 < s.settings.expiryMinutes) :
    (∀ e ∈ (generateOtp s now rands).history,
        e ∈ s.history ∨
          (e.generatedAt = now ∧
            e.expiresAt = e.generatedAt + (s.settings.expiryMinutes : Int) * 60000)) ∧
    (∀ now' : Int, (tick s now' rands).timeLeft
        = max 0 (g + (s.settings.expiryMinutes : Int) * 60000 - now')) ∧
    (tick s (g + (s.settings.expiryMinutes : Int) * 60000) rands).timeLeft = 0 ∧
    (tick s g rands).timeLeft = (s.settings.expiryMinutes : Int) * 60000 := by
  have htick : ∀ now' : Int, (tick s now' rands).timeLeft
      = max 0 (g + (s.settings.expiryMinutes : Int) * 60000 - now') := by
    intro now'
    rw [tick_timeLeft s now' rands g hg hm]
    unfold remainingMs expiryTimeOf
    ring_nf
  refine ⟨?_, htick, ?_, ?_⟩
  · intro e he
    obtain ⟨items, hhist, _, hprop⟩ := generateOtp_history_shape s now rands
    rw [hhist] at he
    have := List.mem_of_mem_take he
    rw [List.mem_append] at this
    rcases this with hnew | hold
    · right
      obtain ⟨h1, h2⟩ := hprop e hnew
      refine ⟨h1, ?_⟩
      rw [h2, h1]
      ring
    · exact Or.inl hold
  · rw [htick]
    omega
  · rw [htick]
    have : (0:Int) ≤ (s.settings.expiryMinutes : Int) * 60000 := by positivity
    omega

theorem expiry_and_tick_remaining_witness :
    ({ initialState with generatedAt := some 1000 } : ManagerState).generatedAt = some 1000 ∧
    0 < ({ initialState with generatedAt := some 1000 } : ManagerState).settings.expiryMinutes ∧
    ((∀ e ∈ (generateOtp { initialState with generatedAt := some 1000 } 2000 (fun _ _ => 0)).history,
        e ∈ ({ initialState with generatedAt := some 1000 } : ManagerState).history ∨
          (e.generatedAt = 2000 ∧
            e.expiresAt = e.generatedAt + (5 : Int) * 60000)) ∧
      (∀ now' : Int,
          (tick { initialState with generatedAt := some 1000 } now' (fun _ _ => 0)).timeLeft
            = max 0 (1000 + (5 : Int) * 60000 - now')) ∧
      (tick { initialState with generatedAt := some 1000 } (1000 + (5 : Int) * 60000)
          (fun _ _ => 0)).timeLeft = 0 ∧
      (tick { initialState with generatedAt := some 1000 } 1000 (fun _ _ => 0)).timeLeft
          = (5 : Int) * 60000) := by
  refine ⟨rfl, by decide, ?_⟩
  exact expiry_and_tick_remaining { initialState with generatedAt := some 1000 } 2000
    (fun _ _ => 0) 1000 rfl (by decide)

theorem numNew_le (s : ManagerState) (hb : s.settings.batchCount ≤ 10) :
    numNew s ≤ 20 := by
  unfold numNew
  split <;> omega

/-- Claim C3: After a `generateOtp` call (single or batch) or a `clearHistory`
call, the history holds at most 20 entries; newest-first order is preserved;
the entries cut at the 20-entry cap are exactly the oldest (the tail of the
old history), the `numNew` fresh entries sitting at the front. -/
theorem history_capped_newest_first (s : ManagerState) (now : Int)
    (rands : Nat → Nat → Nat)
    (hb : s.settings.batchCount ≤ 10)
    (hsorted : s.history.Pairwise (fun a b => b.generatedAt ≤ a.generatedAt))
    (hle : ∀ e ∈ s.history, e.generatedAt ≤ now) :
    (generateOtp s now rands).history.length ≤ 20 ∧
    (clearHistory s).history = [] ∧
    (generateOtp s now rands).history.Pairwise (fun a b => b.generatedAt ≤ a.generatedAt) ∧
    (generateOtp s now rands).history.drop (numNew s) = s.history.take (20 - numNew s) ∧
    ∀ e ∈ (generateOtp s now rands).history.take (numNew s), e.generatedAt = now := by
  obtain ⟨items, hhist, hlen, hprop⟩ := generateOtp_history_shape s now rands
  have hk20 : items.length ≤ 20 := hlen ▸ numNew_le s hb
  refine ⟨?_, rfl, ?_, ?_, ?_⟩
  · rw [hhist]
    exact le_trans (List.length_take_le 20 _) (le_refl 20)
  · rw [hhist]
    refine List.Pairwise.sublist (List.take_sublist 20 _) ?_
    rw [List.pairwise_append]
    refine ⟨List.pairwise_of_forall_mem_list ?_, hsorted, ?_⟩
    · intro a ha b hb'
      rw [(hprop a ha).1, (hprop b hb').1]
    · intro a ha b hb'
      rw [(hprop a ha).1]
      exact hle b hb'
  · rw [hhist, ← hlen, List.drop_take, List.drop_left]
  · rw [hhist, ← hlen, List.take_take, min_eq_left hk20, List.take_left]
    intro e he
    exact (hprop e he).1

theorem history_capped_newest_first_witness :
    initialState.settings.batchCount ≤ 10 ∧
    initialState.history.Pairwise (fun a b => b.generatedAt ≤ a.generatedAt) ∧
    (∀ e ∈ initialState.history, e.generatedAt ≤ 50) ∧
    ((generateOtp initialState 50 (fun _ _ => 0)).history.length ≤ 20 ∧
      (clearHistory initialState).history = [] ∧
      (generateOtp initialState 50 (fun _ _ => 0)).history.Pairwise
        (fun a b => b.generatedAt ≤ a.generatedAt) ∧
      (generateOtp initialState 50 (fun _ _ => 0)).history.drop (numNew initialState)
          = initialState.history.take (20 - numNew initialState) ∧
      ∀ e ∈ (generateOtp initialState 50 (fun _ _ => 0)).history.take (numNew initialState),
        e.generatedAt = 50) := by
  refine ⟨by decide, by simp [initialState], by simp [initialState], ?_⟩
  exact history_capped_newest_first initialState 50 (fun _ _ => 0) (by decide)
    (by simp [initialState]) (by simp [initialState])

theorem generateOtp_single_eq (s : ManagerState) (now : Int) (rands : Nat → Nat → Nat)
    (h1 : s.settings.batchCount = 1) :
    (generateOtp s now rands).otp = generateSingleOtp s.codeType s.codeLength (rands 0) ∧
    (generateOtp s now rands).batchCodes = [] := by
  unfold generateOtp
  rw [if_pos h1]
  exact ⟨rfl, rfl⟩

theorem generateOtp_batch_eq (s : ManagerState) (now : Int) (rands : Nat → Nat → Nat)
    (hne : s.settings.batchCount ≠ 1) :
    (generateOtp s now rands).otp = [] ∧
    (generateOtp s now rands).batchCodes = (List.range s.settings.batchCount).map
        (fun j => generateSingleOtp s.codeType s.codeLength (rands j)) ∧
    (generateOtp s now rands).history
      = ((((List.range s.settings.batchCount).map
            (fun j => generateSingleOtp s.codeType s.codeLength (rands j))).enum.map
            (fun p => ({ id := toString now ++ "-" ++ toString p.1, code := p.2,
                         generatedAt := now,
                         expiresAt := now + (s.settings.expiryMinutes : Int) * 60 * 1000,
                         length := s.codeLength, type := s.codeType } : HistoryItem)))
          ++ s.history).take 20 := by
  unfold generateOtp
  rw [if_neg hne]
  exact ⟨rfl, rfl, rfl⟩

/-- The initial state with `batchCount` set to 5 (as per the settings dialog),
used to instantiate batch-mode theorems on a concrete input. -/
def batch5State : ManagerState :=
  { initialState with
      settings := { expiryMinutes := 5, autoRefresh := false,
                    soundEnabled := true, batchCount := 5 } }

/-- Claim C5: A call with `batchCount = N` (`1 < N ≤ 10`) produces exactly `N`
codes; the `N` matching entries sit at the front of the history (the first `N`
history codes are the batch codes); the history length becomes
`min (N + old length) 20`; only the tail (oldest part) of the old history is
cut. -/
theorem generateOtp_batch_adds_N (s : ManagerState) (now : Int)
    (rands : Nat → Nat → Nat) (N : Nat)
    (hN : s.settings.batchCount = N) (h1 : 1 < N) (h10 : N ≤ 10) :
    (generateOtp s now rands).batchCodes.length = N ∧
    (generateOtp s now rands).history.length = min (N + s.history.length) 20 ∧
    ((generateOtp s now rands).history.take N).map HistoryItem.code
        = (generateOtp s now rands).batchCodes ∧
    (generateOtp s now rands).history.drop N = s.history.take (20 - N) := by
  have hne : s.settings.batchCount ≠ 1 := by omega
  obtain ⟨hotp, hbatch, hhist⟩ := generateOtp_batch_eq s now rands hne
  have hcodes : ((List.range s.settings.batchCount).map
      (fun j => generateSingleOtp s.codeType s.codeLength (rands j))).length = N := by
    rw [List.length_map, List.length_range, hN]
  have hitems : (((List.range s.settings.batchCount).map
      (fun j => generateSingleOtp s.codeType s.codeLength (rands j))).enum.map
      (fun p => ({ id := toString now ++ "-" ++ toString p.1, code := p.2,
                   generatedAt := now,
                   expiresAt := now + (s.settings.expiryMinutes : Int) * 60 * 1000,
                   length := s.codeLength, type := s.codeType } : HistoryItem))).length
        = N := by
    rw [List.length_map, List.enum_length]
    exact hcodes
  refine ⟨?_, ?_, ?_, ?_⟩
  · rw [hbatch]
    exact hcodes
  · rw [hhist, List.length_take, List.length_append, hitems, Nat.min_comm]
  · rw [hhist, hbatch, List.take_take, min_eq_left (by omega), ← hitems,
      List.take_left, List.map_map]
    have : (HistoryItem.code ∘ fun p : Nat × List Char =>
        ({ id := toString now ++ "-" ++ toString p.1, code := p.2,
           generatedAt := now,
           expiresAt := now + (s.settings.expiryMinutes : Int) * 60 * 1000,
           length := s.codeLength, type := s.codeType } : HistoryItem)) = Prod.snd := by
      funext p
      rfl
    rw [this, List.enum_map_snd]
  · rw [hhist, ← hitems, List.drop_take, List.drop_left]

theorem generateOtp_batch_adds_N_witness :
    batch5State.settings.batchCount = 5 ∧ 1 < 5 ∧ 5 ≤ 10 ∧
    ((generateOtp batch5State 0 (fun _ _ => 0)).batchCodes.length = 5 ∧
      (generateOtp batch5State 0 (fun _ _ => 0)).history.length
        = min (5 + batch5State.history.length) 20 ∧
      ((generateOtp batch5State 0 (fun _ _ => 0)).history.take 5).map HistoryItem.code
        = (generateOtp batch5State 0 (fun _ _ => 0)).batchCodes ∧
      (generateOtp batch5State 0 (fun _ _ => 0)).history.drop 5
        = batch5State.history.take (20 - 5)) := by
  refine ⟨rfl, by decide, by decide, ?_⟩
  exact generateOtp_batch_adds_N batch5State 0 (fun _ _ => 0) 5 rfl (by decide) (by decide)

/-- Claim C6: After every `generateOtp` call exactly one of the single code and
the batch is populated: with `batchCount = 1` the single `otp` is a fresh
nonempty code and the batch is emptied; with `batchCount ≠ 1` (and ≥ 1) the
batch is nonempty and the single code is emptied.  The previously displayed
code is overwritten in both cases. -/
theorem generateOtp_exclusive (s : ManagerState) (now : Int) (rands : Nat → Nat → Nat)
    (hr : ∀ j i, rands j i < (charsOf s.codeType).length)
    (hb : 1 ≤ s.settings.batchCount) :
    (s.settings.batchCount = 1 →
      (generateOtp s now rands).otp ≠ [] ∧ (generateOtp s now rands).batchCodes = []) ∧
    (s.settings.batchCount ≠ 1 →
      (generateOtp s now rands).otp = [] ∧ (generateOtp s now rands).batchCodes ≠ []) := by
  constructor
  · intro h1
    obtain ⟨hotp, hbatch⟩ := generateOtp_single_eq s now rands h1
    refine ⟨?_, hbatch⟩
    rw [hotp]
    have hlen := generateSingleOtp_length s.codeType s.codeLength (rands 0) (hr 0)
    intro hnil
    rw [hnil] at hlen
    cases hl : s.codeLength <;> rw [hl] at hlen <;> simp [CodeLength.toNat] at hlen
  · intro hne
    obtain ⟨hotp, hbatch, _⟩ := generateOtp_batch_eq s now rands hne
    refine ⟨hotp, ?_⟩
    rw [hbatch]
    intro hnil
    have := congrArg List.length hnil
    rw [List.length_map, List.length_range] at this
    simp at this
    omega

theorem generateOtp_exclusive_witness :
    (∀ j i, (fun (_ j' : Nat) => j' % 10) j i < (charsOf initialState.codeType).length) ∧
    1 ≤ initialState.settings.batchCount ∧
    ((initialState.settings.batchCount = 1 →
        (generateOtp initialState 0 (fun _ j => j % 10)).otp ≠ [] ∧
          (generateOtp initialState 0 (fun _ j => j % 10)).batchCodes = []) ∧
      (initialState.settings.batchCount ≠ 1 →
        (generateOtp initialState 0 (fun _ j => j % 10)).otp = [] ∧
          (generateOtp initialState 0 (fun _ j => j % 10)).batchCodes ≠ [])) := by
  have hr : ∀ j i, (fun (_ j' : Nat) => j' % 10) j i
      < (charsOf initialState.codeType).length := by
    intro j i
    have : i % 10 < 10 := Nat.mod_lt i (by decide)
    simpa [initialState, charsOf, numericChars] using this
  exact ⟨hr, by decide, generateOtp_exclusive initialState 0 (fun _ j => j % 10) hr (by decide)⟩

/-- The initial state with `expiryMinutes = 0`.  The settings dialog maps an
input of 0 to 5 (`parseInt(...) || 5`), so this arises from a persisted
settings record, which the load effect applies unvalidated. -/
def zeroExpiryState : ManagerState :=
  { initialState with
      settings := { expiryMinutes := 0, autoRefresh := false,
                    soundEnabled := true, batchCount := 1 } }

/-- Claim C4, counterexample: With `expiryMinutes = 0` the countdown effect never
runs, so `timeLeft` keeps its initial value 0; since
`isExpired = (timeLeft === 0 && generatedAt)`, a code generated at time 1000 is
reported expired immediately, and still after a much later tick — refuting
"never considered Expired". -/
theorem expiryZero_considered_expired :
    isExpired (generateOtp zeroExpiryState 1000 (fun _ _ => 0)) = true ∧
    tick (generateOtp zeroExpiryState 1000 (fun _ _ => 0)) 999999999 (fun _ _ => 0)
      = generateOtp zeroExpiryState 1000 (fun _ _ => 0) ∧
    isExpired (tick (generateOtp zeroExpiryState 1000 (fun _ _ => 0)) 999999999
      (fun _ _ => 0)) = true := by
  refine ⟨by decide, by decide, by decide⟩

/-- Claim C4 amended: When `expiryMinutes = 0` the countdown is disabled: `tick`
leaves the state untouched (no `timeLeft` update, no auto-regeneration).  But
`isExpired` ignores `expiryMinutes`, so whenever `timeLeft = 0` — in particular
straight after generating from the initial state — the generated code IS
considered expired. -/
theorem expiryZero_tick_disabled_but_expired (s : ManagerState) (now tnow : Int)
    (rands : Nat → Nat → Nat) (h0 : s.settings.expiryMinutes = 0) :
    tick s tnow rands = s ∧
    (s.timeLeft = 0 → isExpired (generateOtp s now rands) = true) := by
  constructor
  · unfold tick
    cases hg : s.generatedAt with
    | none => rfl
    | some g =>
      rw [h0]
      simp
  · intro ht
    unfold isExpired
    rw [(generateOtp_preserves s now rands).2.1, ht,
      (generateOtp_preserves s now rands).2.2.2.2.2]
    simp

theorem expiryZero_tick_disabled_but_expired_witness :
    zeroExpiryState.settings.expiryMinutes = 0 ∧
    zeroExpiryState.timeLeft = 0 ∧
    (tick zeroExpiryState 77777 (fun _ _ => 0) = zeroExpiryState ∧
      (zeroExpiryState.timeLeft = 0 →
        isExpired (generateOtp zeroExpiryState 1000 (fun _ _ => 0)) = true)) :=
  ⟨rfl, rfl, expiryZero_tick_disabled_but_expired zeroExpiryState 1000 77777
    (fun _ _ => 0) rfl⟩

/-- A state as after reloading persisted settings in which
`settings.autoRefresh` is on while `isAutoRunning` (reset on every mount) is
off, with an active code generated at 0 and a 1-minute expiry already reached. -/
def desyncState : ManagerState :=
  { initialState with
      settings := { expiryMinutes := 1, autoRefresh := true,
                    soundEnabled := true, batchCount := 1 },
      generatedAt := some 0,
      timeLeft := 0 }

/-- Claim C7, counterexample: In `desyncState` the active code is expired and
auto is turned on (`isAutoRunning` becomes true), yet the same toggle turns
`settings.autoRefresh` off, so the next tick performs no regeneration:
`generatedAt` and the history are unchanged.  Also, the toggle does touch the
settings record (it flips `settings.autoRefresh`). -/
theorem toggleAuto_no_regen_counterexample :
    isExpired desyncState = true ∧
    desyncState.settings.autoRefresh = true ∧
    (toggleAutoRefresh desyncState).isAutoRunning = true ∧
    (toggleAutoRefresh desyncState).settings.autoRefresh = false ∧
    (tick (toggleAutoRefresh desyncState) 60000 (fun _ _ => 0)).generatedAt = some 0 ∧
    (tick (toggleAutoRefresh desyncState) 60000 (fun _ _ => 0)).history = [] := by
  refine ⟨by decide, rfl, rfl, rfl, by decide, by decide⟩

theorem tick_fires (s : ManagerState) (now : Int) (rands : Nat → Nat → Nat) (g : Int)
    (hg : s.generatedAt = some g) (hm : 0 < s.settings.expiryMinutes)
    (hauto : s.settings.autoRefresh = true) (hrun : s.isAutoRunning = true)
    (hexp : expiryTimeOf g s.settings.expiryMinutes ≤ now) :
    tick s now rands = generateOtp { s with timeLeft := 0 } now rands := by
  have hrem : remainingMs (expiryTimeOf g s.settings.expiryMinutes) now = 0 := by
    unfold remainingMs
    exact max_eq_left (by omega)
  unfold tick
  rw [hg]
  simp only [hm, if_pos, hrem, hauto, hrun, Bool.and_self, if_true]

/-- Claim C7 amended: `toggleAutoRefresh` flips `isAutoRunning` together with
`settings.autoRefresh`, leaving the other settings fields and every other
state field untouched; when it is turned on from a state with both flags off
whose active code is already expired, the next tick immediately regenerates
(it behaves as a `generateOtp` call on the toggled state). -/
theorem toggleAuto_flip_and_regen (s : ManagerState) (now : Int)
    (rands : Nat → Nat → Nat) (g : Int)
    (hrun : s.isAutoRunning = false) (hauto : s.settings.autoRefresh = false)
    (hg : s.generatedAt = some g) (hm : 0 < s.settings.expiryMinutes)
    (hexp : expiryTimeOf g s.settings.expiryMinutes ≤ now) :
    (toggleAutoRefresh s).isAutoRunning = true ∧
    (toggleAutoRefresh s).settings.autoRefresh = true ∧
    (toggleAutoRefresh s).settings.expiryMinutes = s.settings.expiryMinutes ∧
    (toggleAutoRefresh s).settings.soundEnabled = s.settings.soundEnabled ∧
    (toggleAutoRefresh s).settings.batchCount = s.settings.batchCount ∧
    (toggleAutoRefresh s).otp = s.otp ∧
    (toggleAutoRefresh s).batchCodes = s.batchCodes ∧
    (toggleAutoRefresh s).history = s.history ∧
    (toggleAutoRefresh s).generatedAt = s.generatedAt ∧
    (toggleAutoRefresh s).timeLeft = s.timeLeft ∧
    tick (toggleAutoRefresh s) now rands
      = generateOtp { toggleAutoRefresh s with timeLeft := 0 } now rands := by
  refine ⟨by rw [toggleAutoRefresh, hrun]; rfl, by rw [toggleAutoRefresh, hauto]; rfl,
    rfl, rfl, rfl, rfl, rfl, rfl, rfl, rfl, ?_⟩
  apply tick_fires (toggleAutoRefresh s) now rands g hg hm
  · rw [toggleAutoRefresh, hauto]
    rfl
  · rw [toggleAutoRefresh, hrun]
    rfl
  · exact hexp

/-- The initial state with one active code generated at time 0 (5-minute
expiry), used to instantiate toggle/tick theorems on a concrete input. -/
def expiredIdleState : ManagerState := { initialState with generatedAt := some 0 }

theorem toggleAuto_flip_and_regen_witness :
    expiredIdleState.isAutoRunning = false ∧
    expiredIdleState.settings.autoRefresh = false ∧
    expiredIdleState.generatedAt = some 0 ∧
    0 < expiredIdleState.settings.expiryMinutes ∧
    expiryTimeOf 0 expiredIdleState.settings.expiryMinutes ≤ 300000 ∧
    ((toggleAutoRefresh expiredIdleState).isAutoRunning = true ∧
      (toggleAutoRefresh expiredIdleState).settings.autoRefresh = true ∧
      (toggleAutoRefresh expiredIdleState).settings.expiryMinutes
          = expiredIdleState.settings.expiryMinutes ∧
      (toggleAutoRefresh expiredIdleState).settings.soundEnabled
          = expiredIdleState.settings.soundEnabled ∧
      (toggleAutoRefresh expiredIdleState).settings.batchCount
          = expiredIdleState.settings.batchCount ∧
      (toggleAutoRefresh expiredIdleState).otp = expiredIdleState.otp ∧
      (toggleAutoRefresh expiredIdleState).batchCodes = expiredIdleState.batchCodes ∧
      (toggleAutoRefresh expiredIdleState).history = expiredIdleState.history ∧
      (toggleAutoRefresh expiredIdleState).generatedAt = expiredIdleState.generatedAt ∧
      (toggleAutoRefresh expiredIdleState).timeLeft = expiredIdleState.timeLeft ∧
      tick (toggleAutoRefresh expiredIdleState) 300000 (fun _ _ => 0)
        = generateOtp { toggleAutoRefresh expiredIdleState with timeLeft := 0 } 300000
            (fun _ _ => 0)) := by
  refine ⟨rfl, rfl, rfl, by decide, by decide, ?_⟩
  exact toggleAuto_flip_and_regen expiredIdleState 300000 (fun _ _ => 0) 0
    rfl rfl rfl (by decide) (by decide)

/-- Claim C8: `copyToClipboard` writes the explicitly given (nonempty) code,
else the newline-joined batch when a batch is active, else the single active
code; when there is text, the single write attempt fails exactly when the
platform denies the clipboard write (surfaced as `failed`, no retry), and with
nothing to copy it returns early without touching the clipboard. -/
theorem copyToClipboard_cases (s : ManagerState) (code : Option (List Char))
    (ok : Bool) :
    (∀ c, code = some c → c ≠ [] → textToCopyOf s code = c) ∧
    (code = none → s.batchCodes ≠ [] → textToCopyOf s code = joinNewline s.batchCodes) ∧
    (code = none → s.batchCodes = [] → textToCopyOf s code = s.otp) ∧
    (copyToClipboard s code ok = CopyResult.failed ↔
      textToCopyOf s code ≠ [] ∧ ok = false) ∧
    (textToCopyOf s code ≠ [] → ok = true →
      copyToClipboard s code ok = CopyResult.copied (textToCopyOf s code)) ∧
    (textToCopyOf s code = [] → copyToClipboard s code ok = CopyResult.noText) := by
  refine ⟨?_, ?_, ?_, ?_, ?_, ?_⟩
  · intro c hc hne
    subst hc
    simp [textToCopyOf, hne]
  · intro hc hb
    subst hc
    simp [textToCopyOf, List.length_pos, hb]
  · intro hc hb
    subst hc
    simp [textToCopyOf, hb]
  · unfold copyToClipboard
    split_ifs with h1 h2 <;> simp_all
  · intro ht hok
    unfold copyToClipboard
    rw [if_neg ht, if_pos hok]
  · intro ht
    unfold copyToClipboard
    rw [if_pos ht]

theorem copyToClipboard_cases_witness :
    textToCopyOf { initialState with otp := ['1', '2'] } (some ['9']) = ['9'] ∧
    copyToClipboard { initialState with otp := ['1', '2'] } (some ['9']) false
      = CopyResult.failed := by
  refine ⟨(copyToClipboard_cases { initialState with otp := ['1', '2'] } (some ['9'])
      false).1 ['9'] rfl (by decide), ?_⟩
  exact ((copyToClipboard_cases { initialState with otp := ['1', '2'] } (some ['9'])
      false).2.2.2.1).mpr ⟨by decide, rfl⟩

/-- A JSON value: the common currency of the `JSON.stringify`/`JSON.parse`
pairs used by the localStorage persistence (lines 51–71, 149–151, 167–169). -/
inductive JValue where
  | jnull
  | jbool (b : Bool)
  | jnum (n : Int)
  | jstr (str : String)
  | jarr (items : List JValue)
  | jobj (fields : List (String × JValue))

/-- Reading a named field of a parsed JSON object. -/
def jlookup (fields : List (String × JValue)) (key : String) : Option JValue :=
  match fields.find? (fun p => p.1 == key) with
  | some p => some p.2
  | none => none

def asBool : JValue → Option Bool
  | .jbool b => some b
  | _ => none

def asNat : JValue → Option Nat
  | .jnum n => if 0 ≤ n then some n.toNat else none
  | _ => none

def asInt : JValue → Option Int
  | .jnum n => some n
  | _ => none

def asStr : JValue → Option String
  | .jstr str => some str
  | _ => none

/-- Effect `JSON.stringify(settings)` (line 70). -/
def encodeSettings (s : Settings) : JValue :=
  .jobj [("expiryMinutes", .jnum (s.expiryMinutes : Int)),
         ("autoRefresh", .jbool s.autoRefresh),
         ("soundEnabled", .jbool s.soundEnabled),
         ("batchCount", .jnum (s.batchCount : Int))]

/-- Effect `JSON.parse(savedSettings)` read back as a `Settings` record (line 54). -/
def decodeSettings : JValue → Option Settings
  | .jobj fields =>
    (jlookup fields "expiryMinutes").bind fun v1 =>
    (asNat v1).bind fun em =>
    (jlookup fields "autoRefresh").bind fun v2 =>
    (asBool v2).bind fun ar =>
    (jlookup fields "soundEnabled").bind fun v3 =>
    (asBool v3).bind fun se =>
    (jlookup fields "batchCount").bind fun v4 =>
    (asNat v4).bind fun bc =>
    some { expiryMinutes := em, autoRefresh := ar, soundEnabled := se, batchCount := bc }
  | _ => none

/-- The serialized name of a `CodeType`. -/
def CodeType.toName : CodeType → String
  | .numeric => "numeric"
  | .alphanumeric => "alphanumeric"

def codeTypeOfName (str : String) : Option CodeType :=
  if str = "numeric" then some CodeType.numeric
  else if str = "alphanumeric" then some CodeType.alphanumeric
  else none

def codeLengthOfNat (n : Nat) : Option CodeLength :=
  if n = 4 then some CodeLength.four
  else if n = 6 then some CodeLength.six
  else if n = 8 then some CodeLength.eight
  else none

/-- Serialization `JSON.stringify` of one history item as created at lines 140–147/158–165.
The `Date` fields are serialized by `toISOString` and re-parsed on load with
`new Date(...)` (lines 59–63); for representable epoch-ms values that
serialize-then-reparse composite returns the original millisecond value, so
the embedding carries each timestamp through as its epoch milliseconds. -/
def encodeHistoryItem (e : HistoryItem) : JValue :=
  .jobj [("id", .jstr e.id),
         ("code", .jstr (String.mk e.code)),
         ("generatedAt", .jnum e.generatedAt),
         ("expiresAt", .jnum e.expiresAt),
         ("length", .jnum (e.length.toNat : Int)),
         ("type", .jstr e.type.toName)]

/-- One element of `JSON.parse(savedHistory).map(...)` (lines 59–63) read back
as a typed `HistoryItem`. -/
def decodeHistoryItem : JValue → Option HistoryItem
  | .jobj fields =>
    (jlookup fields "id").bind fun v1 =>
    (asStr v1).bind fun idv =>
    (jlookup fields "code").bind fun v2 =>
    (asStr v2).bind fun codev =>
    (jlookup fields "generatedAt").bind fun v3 =>
    (asInt v3).bind fun gen =>
    (jlookup fields "expiresAt").bind fun v4 =>
    (asInt v4).bind fun ex =>
    (jlookup fields "length").bind fun v5 =>
    (asNat v5).bind fun ln =>
    (codeLengthOfNat ln).bind fun len =>
    (jlookup fields "type").bind fun v6 =>
    (asStr v6).bind fun tn =>
    (codeTypeOfName tn).bind fun ty =>
    some { id := idv, code := codev.data, generatedAt := gen, expiresAt := ex,
           length := len, type := ty }
  | _ => none

/-- Effect `JSON.stringify(newHistory)` (lines 151, 169). -/
def encodeHistory (h : List HistoryItem) : JValue :=
  .jarr (h.map encodeHistoryItem)

def decodeHistoryList : List JValue → Option (List HistoryItem)
  | [] => some []
  | v :: vs =>
    (decodeHistoryItem v).bind fun e =>
    (decodeHistoryList vs).bind fun es =>
    some (e :: es)

/-- Effect `JSON.parse(savedHistory)` with the per-item `Date` re-parsing map
(lines 57–65), read back as a typed history list.  No `.slice(0, 20)` is
applied. -/
def decodeHistory : JValue → Option (List HistoryItem)
  | .jarr items => decodeHistoryList items
  | _ => none

theorem asNat_natCast (n : Nat) : asNat (JValue.jnum (n : Int)) = some n := by
  show (if 0 ≤ (n : Int) then some (n : Int).toNat else none) = some n
  rw [if_pos (Int.natCast_nonneg n)]
  simp

theorem decodeSettings_encodeSettings (s : Settings) :
    decodeSettings (encodeSettings s) = some s := by
  simp [decodeSettings, encodeSettings, jlookup, List.find?, asBool, asNat_natCast]

theorem decodeHistoryItem_encodeHistoryItem (e : HistoryItem) :
    decodeHistoryItem (encodeHistoryItem e) = some e := by
  have hlen : codeLengthOfNat e.length.toNat = some e.length := by
    cases e.length <;> rfl
  have hty : codeTypeOfName e.type.toName = some e.type := by
    cases e.type <;> rfl
  simp [decodeHistoryItem, encodeHistoryItem, jlookup, List.find?, asStr, asInt,
    asNat_natCast, hlen, hty]

theorem mapM_decode_encode (h : List HistoryItem) :
    decodeHistoryList (h.map encodeHistoryItem) = some h := by
  induction h with
  | nil => rfl
  | cons e es ih =>
    simp [decodeHistoryList, decodeHistoryItem_encodeHistoryItem, ih]

theorem decodeHistory_encodeHistory (h : List HistoryItem) :
    decodeHistory (encodeHistory h) = some h :=
  mapM_decode_encode h

/-- Claim C9: Persisting the settings record and reloading yields the identical
record; persisting the history and reloading yields the same history, the two
timestamp fields having gone through serialization and re-parsing (a composite
the embedding models as epoch-ms-preserving, which is what
`toISOString` / `new Date` guarantee for representable dates). -/
theorem persistence_round_trip (s : Settings) (h : List HistoryItem) :
    decodeSettings (encodeSettings s) = some s ∧
    decodeHistory (encodeHistory h) = some h :=
  ⟨decodeSettings_encodeSettings s, decodeHistory_encodeHistory h⟩

/-- Claim C10: The load effect restores the stored history snapshot verbatim —
no truncation to 20, no dropping of entries — so a stored snapshot of more
than 20 entries yields an in-memory history longer than 20; the next
`generateOtp` call then caps it back to exactly 20. -/
theorem load_restores_verbatim_no_cap (h : List HistoryItem) (st : ManagerState)
    (now : Int) (rands : Nat → Nat → Nat)
    (hlen : 20 < h.length) (hst : 20 < st.history.length) :
    decodeHistory (encodeHistory h) = some h ∧ 20 < h.length ∧
    (generateOtp st now rands).history.length = 20 := by
  refine ⟨decodeHistory_encodeHistory h, hlen, ?_⟩
  obtain ⟨items, hhist, _, _⟩ := generateOtp_history_shape st now rands
  rw [hhist, List.length_take, List.length_append]
  omega

/-- A sample history entry used to instantiate the persistence theorems. -/
def sampleItem : HistoryItem :=
  { id := "0", code := ['1', '2', '3', '4', '5', '6'], generatedAt := 0,
    expiresAt := 300000, length := CodeLength.six, type := CodeType.numeric }

theorem load_restores_verbatim_no_cap_witness :
    20 < (List.replicate 21 sampleItem).length ∧
    20 < ({ initialState with history := List.replicate 21 sampleItem }
      : ManagerState).history.length ∧
    (decodeHistory (encodeHistory (List.replicate 21 sampleItem))
        = some (List.replicate 21 sampleItem) ∧
      20 < (List.replicate 21 sampleItem).length ∧
      (generateOtp { initialState with history := List.replicate 21 sampleItem } 0
          (fun _ _ => 0)).history.length = 20) := by
  refine ⟨by simp, by simp, ?_⟩
  exact load_restores_verbatim_no_cap (List.replicate 21 sampleItem) _ 0
    (fun _ _ => 0) (by simp) (by simp)

end Otp
